import Mathlib

/-!
Shallow embedding of the Order Session Core of a restaurant voice-ordering
agent: the cart engine and catalog access (db.py), the menu projection and
summarization helpers (db.py), and the agent tool layer (agent.py).

Modelling conventions:
- money amounts are rationals; the products table is a function from
  product id to an optional product row;
- Python truthiness tests on optional arguments are translated
  explicitly: an optional argument is truthy when it is present and
  not empty (strings, lists) / not zero (numbers);
- fallible code returns Except (a raised ValueError becomes an error
  value); the in-place mutation of the cart dictionary becomes a
  returned cart value (on error the original cart stands unchanged).
-/

abbrev SelectedOption := List (String × String)

structure Product where
  id : String
  name : String
  base_price : ℚ
  is_available : Bool
deriving Repr, DecidableEq

abbrev Catalog := String → Option Product

/-- Embedding of db.get_product_by_id: the query filters both on the id
column and on is_available = true, so a missing or unavailable product
yields none. -/
def get_product_by_id (catalog : Catalog) (product_id : String) : Option Product :=
  match catalog product_id with
  | some p => if p.is_available then some p else none
  | none => none

structure CartItem where
  product_id : String
  name : String
  quantity : Int
  unit_price : ℚ
  total_price : ℚ
  selected_options : List SelectedOption
  special_instructions : String
deriving Repr, DecidableEq

structure Cart where
  location_id : String
  customer_id : Option String
  items : List CartItem
  subtotal : ℚ
  tax_amount : ℚ
  discount_amount : ℚ
  total_amount : ℚ
deriving Repr, DecidableEq

/-- Embedding of db.create_cart. -/
def create_cart (location_id : String) (customer_id : Option String) : Cart :=
  { location_id := location_id
    customer_id := customer_id
    items := []
    subtotal := 0
    tax_amount := 0
    discount_amount := 0
    total_amount := 0 }

/-- Python round(x, 2) on our rational model of prices: round to the
nearest multiple of 1/100. -/
def round2 (q : ℚ) : ℚ := (round (q * 100) : ℤ) / 100

/-- First item of the list whose product_id matches, as in
next((item for item in cart.items if item.product_id == product_id), None). -/
def findFirst (product_id : String) : List CartItem → Option CartItem
  | [] => none
  | i :: rest => if i.product_id = product_id then some i else findFirst product_id rest

/-- In-place mutation of the first matching item, expressed functionally:
the first item whose product_id matches is replaced by f of itself. -/
def updateFirstItem (product_id : String) (f : CartItem → CartItem) :
    List CartItem → List CartItem
  | [] => []
  | i :: rest =>
    if i.product_id = product_id then f i :: rest
    else i :: updateFirstItem product_id f rest

/-- Embedding of the existing-item branch of db.update_cart (lines
109 to 117): a truthy quantity replaces, otherwise increment by 1;
truthy selected_options / special_instructions replace, otherwise the
stored values are kept; total_price is recomputed from the new quantity
and the unit price fetched by this call (the stored unit_price field is
not modified). -/
def applyItemUpdate (quantity : Option Int) (selected_options : Option (List SelectedOption))
    (special_instructions : Option String) (unit_price : ℚ) (it : CartItem) : CartItem :=
  let newQty : Int :=
    match quantity with
    | some q => if q ≠ 0 then q else it.quantity + 1
    | none => it.quantity + 1
  let newOpts : List SelectedOption :=
    match selected_options with
    | some l => if l ≠ [] then l else it.selected_options
    | none => it.selected_options
  let newInstr : String :=
    match special_instructions with
    | some s => if s ≠ "" then s else it.special_instructions
    | none => it.special_instructions
  { it with
    quantity := newQty
    selected_options := newOpts
    special_instructions := newInstr
    total_price := newQty * unit_price }

/-- Embedding of the new-item branch of db.update_cart (lines 119 to 129). -/
def newCartItem (product_id : String) (product : Product) (quantity : Option Int)
    (selected_options : Option (List SelectedOption))
    (special_instructions : Option String) : CartItem :=
  let q : Int :=
    match quantity with
    | some qq => if qq ≠ 0 then qq else 1
    | none => 1
  { product_id := product_id
    name := product.name
    quantity := q
    unit_price := product.base_price
    total_price := q * product.base_price
    selected_options :=
      match selected_options with
      | some l => if l ≠ [] then l else []
      | none => []
    special_instructions :=
      match special_instructions with
      | some s => if s ≠ "" then s else ""
      | none => "" }

/-- Add/update step of db.update_cart (lines 100 to 129): run only for a
truthy product_id; resolves the product and either updates the first
existing item in place or appends a new item. -/
def applyProductStep (catalog : Catalog) (cart : Cart) (product_id : Option String)
    (quantity : Option Int) (selected_options : Option (List SelectedOption))
    (special_instructions : Option String) : Except String Cart :=
  match product_id with
  | some pid =>
    if pid ≠ "" then
      match get_product_by_id catalog pid with
      | none => .error ("Product " ++ pid ++ " not found or unavailable")
      | some product =>
        match findFirst pid cart.items with
        | some _ =>
          .ok { cart with
                items := updateFirstItem pid
                  (applyItemUpdate quantity selected_options special_instructions
                    product.base_price) cart.items }
        | none =>
          .ok { cart with
                items := cart.items ++
                  [newCartItem pid product quantity selected_options special_instructions] }
    else .ok cart
  | none => .ok cart

/-- Totals block of db.update_cart (lines 131 to 135): always runs after
the (possibly skipped) item step. -/
def recompute_totals (tax_rate discount_amount : ℚ) (c : Cart) : Cart :=
  let subtotal := (c.items.map CartItem.total_price).sum
  let tax := round2 (subtotal * tax_rate)
  { c with
    subtotal := subtotal
    discount_amount := discount_amount
    tax_amount := tax
    total_amount := round2 (subtotal + tax - discount_amount) }

/-- Embedding of db.update_cart. -/
def update_cart (catalog : Catalog) (cart : Cart) (product_id : Option String)
    (quantity : Option Int) (selected_options : Option (List SelectedOption))
    (special_instructions : Option String) (tax_rate discount_amount : ℚ) :
    Except String Cart :=
  (applyProductStep catalog cart product_id quantity selected_options
    special_instructions).map (recompute_totals tax_rate discount_amount)

/-- Embedding of the add_to_cart tool of agent.py (lines 198 to 226): the
returned string is the tool result handed to the dialog engine, the
returned cart is self.cart after the call (unchanged whenever the tool
rejects the input or catches an update error). The isinstance check of
the source cannot fail in a typed embedding. -/
def add_to_cart (catalog : Catalog) (cart : Cart) (product_id : String)
    (quantity : Int) (special_instructions : String) : String × Cart :=
  if product_id = "" then ("Invalid product ID provided.", cart)
  else if quantity ≤ 0 then ("Quantity must be a positive number.", cart)
  else
    match update_cart catalog cart (some product_id) (some quantity) (some [])
      (some special_instructions) 0 0 with
    | .error e => ("Sorry, I couldn\x27t add that item to your cart. " ++ e, cart)
    | .ok c =>
      match findFirst product_id c.items with
      | some it =>
        ("Added " ++ it.name ++ " (quantity: " ++ toString it.quantity ++
          ") to your cart. Cart total: " ++ toString c.total_amount ++ " KWD", c)
      | none => ("Item added to cart successfully", c)

/-!
Menu side: projection of raw product rows into the compact menu
(db.build_compact_menu), keyword lookup (agent.lookup_menu) and the
summary digest (db.summarize_menu).
-/

/-- Nested raw-source blob of a product row (the menu_json column). -/
structure MenuJson where
  base_price_kd : Option ℚ
  item_id : Option String
  name_en : Option String
  name_ar : Option String
  description_en : Option String
  description_ar : Option String
  in_stock : Option Bool
  category : Option String
  category_ar : Option String
deriving Repr, DecidableEq

/-- All-absent menu_json blob, the fallback for p.get("menu_json") or \x7b\x7d. -/
def emptyMenuJson : MenuJson :=
  { base_price_kd := none, item_id := none, name_en := none, name_ar := none
    description_en := none, description_ar := none, in_stock := none
    category := none, category_ar := none }

/-- Raw product row as read defensively by build_compact_menu: every
field may be absent. -/
structure RawProduct where
  id : Option String
  name : Option String
  name_ar : Option String
  description : Option String
  description_ar : Option String
  base_price : Option ℚ
  short_code : Option String
  is_available : Option Bool
  image_url : Option String
  category : Option String
  category_ar : Option String
  updated_at : Option String
  menu_json : Option MenuJson
deriving Repr, DecidableEq

/-- Python a or b on optional strings: a wins when truthy (present and
non-empty), else b. -/
def orStr (a b : Option String) : Option String :=
  match a with
  | some s => if s = "" then b else some s
  | none => b

/-- Python a or b on optional numbers: a wins when truthy (present and
non-zero), else b. -/
def orQ (a b : Option ℚ) : Option ℚ :=
  match a with
  | some q => if q = 0 then b else some q
  | none => b

structure MenuItem where
  id : Option String
  name : Option String
  name_ar : Option String
  description : Option String
  description_ar : Option String
  price : Option ℚ
  short_code : Option String
  in_stock : Bool
  image_url : Option String
  category : Option String
  category_ar : Option String
  updated_at : Option String
deriving Repr, DecidableEq

/-- Projection of one raw row inside db.build_compact_menu (lines 220
to 239): top-level field or nested blob via Python or (truthiness); the
price chain alone carries the source\x27s trailing or None (line 222),
which normalizes a falsy fallback, e.g. a nested price of 0, to an
absent price; in_stock uses an explicit is-not-None test with default
true. -/
def project_product (p : RawProduct) : MenuItem :=
  let mj := p.menu_json.getD emptyMenuJson
  { id := p.id
    name := orStr p.name mj.name_en
    name_ar := orStr p.name_ar mj.name_ar
    description := orStr p.description mj.description_en
    description_ar := orStr p.description_ar mj.description_ar
    price := orQ (orQ p.base_price mj.base_price_kd) none
    short_code := orStr p.short_code mj.item_id
    in_stock :=
      match p.is_available with
      | some b => b
      | none => mj.in_stock.getD true
    image_url := p.image_url
    category := orStr p.category mj.category
    category_ar := orStr p.category_ar mj.category_ar
    updated_at := p.updated_at }

structure CompactMenu where
  items : List MenuItem
  count : Nat
  fetched_at : String
deriving Repr, DecidableEq

/-- Embedding of db.build_compact_menu; datetime.utcnow() becomes the
explicit now argument. -/
def build_compact_menu (now : String) (products : List RawProduct) : CompactMenu :=
  let items := products.map project_product
  { items := items, count := items.length, fetched_at := now }

/-- Contiguous-prefix test on character lists. -/
def isPrefixList : List Char → List Char → Bool
  | [], _ => true
  | _ :: _, [] => false
  | a :: as, b :: bs => a = b && isPrefixList as bs

/-- Contiguous-substring test on character lists, the Python in operator
on strings. -/
def isInfixList (needle hay : List Char) : Bool :=
  match hay with
  | [] => needle.isEmpty
  | _ :: tl => isPrefixList needle hay || isInfixList needle tl

/-- Python needle in hay for strings. -/
def strContains (hay needle : String) : Bool :=
  isInfixList needle.toList hay.toList

/-- Python str.strip(): drop leading and trailing whitespace
(kernel-reducible stand-in for String.trim). -/
def stripStr (s : String) : String :=
  ⟨((s.data.dropWhile Char.isWhitespace).reverse.dropWhile
      Char.isWhitespace).reverse⟩

/-- Python s.endswith(suf). -/
def endsWithStr (s suf : String) : Bool :=
  isPrefixList suf.data.reverse s.data.reverse

/-- Python sep.join(parts). -/
def joinSep (sep : String) : List String → String
  | [] => ""
  | [x] => x
  | x :: xs => x ++ sep ++ joinSep sep xs

/-- First n characters of a string, Python s[:n]. -/
def takeStr (n : Nat) (s : String) : String := ⟨s.data.take n⟩

/-- Per-character lowercasing, the Python str.lower() used by
lookup_menu (kernel-reducible, unlike String.toLower). -/
def lowerStr (s : String) : String := ⟨s.data.map Char.toLower⟩

/-- Match test of agent.lookup_menu (lines 140 to 143): the lowered
query is a substring of at least one of the six lowered text fields,
absent fields read as the empty string. The argument ql is already
lowered (q = query.lower() in the source). -/
def matchesQuery (ql : String) (item : MenuItem) : Bool :=
  strContains (lowerStr (item.name.getD "")) ql ||
  strContains (lowerStr (item.name_ar.getD "")) ql ||
  strContains (lowerStr (item.category.getD "")) ql ||
  strContains (lowerStr (item.category_ar.getD "")) ql ||
  strContains (lowerStr (item.description.getD "")) ql ||
  strContains (lowerStr (item.description_ar.getD "")) ql

/-- Record appended to matches for each matching item. -/
structure MatchRec where
  name_en : Option String
  name_ar : Option String
  description_en : Option String
  description_ar : Option String
  price : Option ℚ
deriving Repr, DecidableEq

def projMatch (item : MenuItem) : MatchRec :=
  { name_en := item.name
    name_ar := item.name_ar
    description_en := item.description
    description_ar := item.description_ar
    price := item.price }

/-- Accumulation loop of agent.lookup_menu: walk the items in source
order, appending the projected record of every matching item. -/
def lookupMatches (ql : String) : List MenuItem → List MatchRec
  | [] => []
  | item :: rest =>
    if matchesQuery ql item then projMatch item :: lookupMatches ql rest
    else lookupMatches ql rest

/-- Python str() applied to an optional string (None prints as None). -/
def pyStrOpt : Option String → String
  | some s => s
  | none => "None"

/-- Decimal rendering of a rational with two fractional digits, standing
in for Python float formatting of prices. -/
def qToDec2 (p : ℚ) : String :=
  let n : Int := round (p * 100)
  let a : Nat := n.natAbs
  let fracStr := if a % 100 < 10 then "0" ++ toString (a % 100) else toString (a % 100)
  (if n < 0 then "-" else "") ++ toString (a / 100) ++ "." ++ fracStr

/-- Python str() applied to an optional price. -/
def pyStrPrice : Option ℚ → String
  | some q => qToDec2 q
  | none => "None"

/-- Spoken sentence built per match in agent.lookup_menu (line 168). -/
def matchSentence (m : MatchRec) : String :=
  "Certainly. The " ++ pyStrOpt m.name_en ++ " is made with " ++
    pyStrOpt m.description_en ++ " and costs " ++ pyStrPrice m.price ++ " K.D."

/-- Result of the lookup_menu tool: the text spoken through the session
side channel and the confirmation string returned to the dialog engine. -/
structure LookupResult where
  spoken : String
  engine : String
deriving Repr, DecidableEq

/-- Embedding of the lookup_menu tool of agent.py (lines 131 to 177). -/
def lookup_menu (menu : CompactMenu) (query : String) : LookupResult :=
  let found := lookupMatches (lowerStr query) (menu.items)
  if found = [] then
    { spoken := "I\x27m sorry, I couldn\x27t find anything matching \x27" ++ query ++
        "\x27 on the menu."
      engine := "Informed the user that no matching menu items were found." }
  else
    { spoken := joinSep " " (found.map matchSentence)
      engine := "The menu item details have been spoken to the user." }

/-- Price formatter fmt_price of db.summarize_menu: empty for an absent
price, otherwise a two-decimal figure followed by the currency, stripped. -/
def fmt_price (currency : String) : Option ℚ → String
  | none => ""
  | some p => stripStr (qToDec2 p ++ " " ++ currency)

/-- Fallback code from the id field: first 8 characters of a truthy id,
else "unknown" (the expression (i.get("id") and i.get("id")[:8]) or
"unknown" of the source). -/
def idCode (i : MenuItem) : String :=
  match i.id with
  | some s => if s = "" then "unknown" else takeStr 8 s
  | none => "unknown"

/-- Display code of an item: truthy short_code, else the id fallback. -/
def itemCode (i : MenuItem) : String :=
  match i.short_code with
  | some s => if s = "" then idCode i else s
  | none => idCode i

/-- One line of the digest, loop body of db.summarize_menu (lines 264
to 278). -/
def lineFor (currency : String) (i : MenuItem) : String :=
  let code := itemCode i
  let name_en := stripStr (i.name.getD "")
  let name_ar := stripStr (i.name_ar.getD "")
  let price_str := fmt_price currency i.price
  let price_suffix := if price_str = "" then "" else " — " ++ price_str
  if name_en ≠ "" ∧ name_ar ≠ "" then
    code ++ ": " ++ name_en ++ " / " ++ name_ar ++ price_suffix
  else if name_en ≠ "" then code ++ ": " ++ name_en ++ price_suffix
  else if name_ar ≠ "" then code ++ ": " ++ name_ar ++ price_suffix
  else code ++ ": Unnamed" ++ price_suffix

/-- Truthy category values with duplicates removed. The source builds a
Python set, whose iteration order is unspecified; we model it as
first-occurrence order, which no theorem below depends on. -/
def dedupCategories (l : List (Option String)) : List String :=
  ((l.filterMap id).filter (fun s => s ≠ "")).dedup

/-- Category list rendering: up to 10 entries, "None" when empty. -/
def catStr (cats : List String) : String :=
  if cats = [] then "None" else joinSep ", " (cats.take 10)

/-- Embedding of db.summarize_menu. A falsy compact_menu argument (None
or an empty dictionary) is the none case; a menu built by
build_compact_menu is always truthy, with zero items or not. -/
def summarize_menu (compact_menu : Option CompactMenu) (top_n : Nat)
    (currency : String) : String :=
  match compact_menu with
  | none => "No menu available."
  | some menu =>
    let items := menu.items
    let top := items.take top_n
    let lines := top.map (lineFor currency)
    let items_summary :=
      if lines = [] then "No items available."
      else
        let s := joinSep "; " lines
        if endsWithStr s "." then s else s ++ "."
    let cat_en_str := catStr (dedupCategories (items.map MenuItem.category))
    let cat_ar_str := catStr (dedupCategories (items.map MenuItem.category_ar))
    "Top " ++ toString top.length ++ " items: " ++ items_summary ++
      " Categories (EN): " ++ cat_en_str ++ ". Categories (AR): " ++ cat_ar_str ++ "."

/-!
Helper lemmas about the in-place item update and the totals recompute.
-/

theorem recompute_totals_items (tr da : ℚ) (c : Cart) :
    (recompute_totals tr da c).items = c.items := rfl

theorem updateFirstItem_length (pid : String) (f : CartItem → CartItem)
    (l : List CartItem) : (updateFirstItem pid f l).length = l.length := by
  induction l with
  | nil => rfl
  | cons i rest ih =>
    by_cases h : i.product_id = pid
    · simp [updateFirstItem, h]
    · simp [updateFirstItem, h, ih]

theorem findFirst_updateFirstItem (pid : String) (f : CartItem → CartItem)
    (hf : ∀ x, (f x).product_id = x.product_id) (l : List CartItem) :
    findFirst pid (updateFirstItem pid f l) = (findFirst pid l).map f := by
  induction l with
  | nil => rfl
  | cons i rest ih =>
    by_cases h : i.product_id = pid
    · simp [updateFirstItem, findFirst, h, hf]
    · simp [updateFirstItem, findFirst, h, ih]

theorem countP_updateFirstItem (pid : String) (f : CartItem → CartItem)
    (hf : ∀ x, (f x).product_id = x.product_id) (l : List CartItem) :
    (updateFirstItem pid f l).countP (fun i => i.product_id == pid) =
      l.countP (fun i => i.product_id == pid) := by
  induction l with
  | nil => rfl
  | cons i rest ih =>
    by_cases h : i.product_id = pid
    · simp [updateFirstItem, h, List.countP_cons, hf]
    · simp [updateFirstItem, h, List.countP_cons, ih]

theorem map_unitPrice_updateFirstItem (pid : String) (f : CartItem → CartItem)
    (hf : ∀ x, (f x).unit_price = x.unit_price) (l : List CartItem) :
    (updateFirstItem pid f l).map CartItem.unit_price = l.map CartItem.unit_price := by
  induction l with
  | nil => rfl
  | cons i rest ih =>
    by_cases h : i.product_id = pid
    · simp [updateFirstItem, h, hf]
    · simp [updateFirstItem, h, ih]

theorem mem_updateFirstItem {pid : String} {f : CartItem → CartItem}
    {l : List CartItem} {x : CartItem} (hx : x ∈ updateFirstItem pid f l) :
    x ∈ l ∨ ∃ y, y ∈ l ∧ y.product_id = pid ∧ x = f y := by
  induction l with
  | nil => simp [updateFirstItem] at hx
  | cons i rest ih =>
    by_cases h : i.product_id = pid
    · simp only [updateFirstItem, if_pos h, List.mem_cons] at hx
      rcases hx with hx | hx
      · exact Or.inr ⟨i, List.mem_cons_self i rest, h, hx⟩
      · exact Or.inl (List.mem_cons_of_mem i hx)
    · simp only [updateFirstItem, if_neg h, List.mem_cons] at hx
      rcases hx with hx | hx
      · exact Or.inl (by simp [hx])
      · rcases ih hx with h1 | ⟨y, hy, hyp, hxy⟩
        · exact Or.inl (List.mem_cons_of_mem i h1)
        · exact Or.inr ⟨y, List.mem_cons_of_mem i hy, hyp, hxy⟩

theorem applyItemUpdate_product_id (qo : Option Int)
    (so : Option (List SelectedOption)) (io : Option String) (up : ℚ)
    (it : CartItem) : (applyItemUpdate qo so io up it).product_id = it.product_id := rfl

theorem applyItemUpdate_unit_price (qo : Option Int)
    (so : Option (List SelectedOption)) (io : Option String) (up : ℚ)
    (it : CartItem) : (applyItemUpdate qo so io up it).unit_price = it.unit_price := rfl

theorem update_cart_ok (catalog : Catalog) (cart : Cart) (pido : Option String)
    (q : Option Int) (opts : Option (List SelectedOption)) (instr : Option String)
    (tr da : ℚ) (c2 : Cart)
    (h : update_cart catalog cart pido q opts instr tr da = .ok c2) :
    ∃ c, applyProductStep catalog cart pido q opts instr = .ok c ∧
      c2 = recompute_totals tr da c := by
  unfold update_cart at h
  cases hs : applyProductStep catalog cart pido q opts instr with
  | error e => rw [hs] at h; simp [Except.map] at h
  | ok c =>
    rw [hs] at h
    simp only [Except.map, Except.ok.injEq] at h
    exact ⟨c, rfl, h.symm⟩

theorem applyProductStep_ok_cases (catalog : Catalog) (cart : Cart)
    (pido : Option String) (q : Option Int) (opts : Option (List SelectedOption))
    (instr : Option String) (c : Cart)
    (h : applyProductStep catalog cart pido q opts instr = .ok c) :
    c = cart ∨
    (∃ pid p, pido = some pid ∧ get_product_by_id catalog pid = some p ∧
      c = { cart with
            items := updateFirstItem pid
              (applyItemUpdate q opts instr p.base_price) cart.items }) ∨
    (∃ pid p, pido = some pid ∧ get_product_by_id catalog pid = some p ∧
      c = { cart with items := cart.items ++ [newCartItem pid p q opts instr] }) := by
  cases pido with
  | none =>
    simp only [applyProductStep, Except.ok.injEq] at h
    exact Or.inl h.symm
  | some pid =>
    by_cases hpid : pid ≠ ""
    · cases hres : get_product_by_id catalog pid with
      | none => simp [applyProductStep, hpid, hres] at h
      | some p =>
        cases hfind : findFirst pid cart.items with
        | some it =>
          simp only [applyProductStep, if_pos hpid, hres, hfind, Except.ok.injEq] at h
          exact Or.inr (Or.inl ⟨pid, p, rfl, hres, h.symm⟩)
        | none =>
          simp only [applyProductStep, if_pos hpid, hres, hfind, Except.ok.injEq] at h
          exact Or.inr (Or.inr ⟨pid, p, rfl, hres, h.symm⟩)
    · simp only [applyProductStep, if_neg hpid, Except.ok.injEq] at h
      exact Or.inl h.symm

/-!
Concrete example values shared by witnesses and counterexamples.
-/

def exProductP : Product :=
  { id := "P", name := "Pizza", base_price := 2, is_available := true }

def exCatalogP : Catalog := fun pid => if pid = "P" then some exProductP else none

def exItemP : CartItem :=
  { product_id := "P", name := "Pizza", quantity := 1, unit_price := 2,
    total_price := 2, selected_options := [[("size", "large")]],
    special_instructions := "no onions" }

def exCartP : Cart :=
  { location_id := "L", customer_id := none, items := [exItemP],
    subtotal := 2, tax_amount := 0, discount_amount := 0, total_amount := 2 }

/-- Claim C1: for a cart already holding an item for the product id, an
update with an explicitly provided (validated, hence non-zero) quantity
sets that item\x27s quantity to exactly that value, an update with the
quantity omitted increments it by exactly 1, and in both cases the item
count and the number of lines for that product id are unchanged (no
duplicate line item is created). -/
theorem claim_C1_update_existing (catalog : Catalog) (cart : Cart) (pid : String)
    (p : Product) (it : CartItem) (opts : Option (List SelectedOption))
    (instr : Option String) (tr da : ℚ)
    (hpid : pid ≠ "")
    (hres : get_product_by_id catalog pid = some p)
    (hex : findFirst pid cart.items = some it) :
    (∀ q : Int, q ≠ 0 →
      ∃ c2, update_cart catalog cart (some pid) (some q) opts instr tr da = .ok c2 ∧
        (findFirst pid c2.items).map CartItem.quantity = some q ∧
        c2.items.length = cart.items.length ∧
        c2.items.countP (fun i => i.product_id == pid) =
          cart.items.countP (fun i => i.product_id == pid)) ∧
    (∃ c2, update_cart catalog cart (some pid) none opts instr tr da = .ok c2 ∧
      (findFirst pid c2.items).map CartItem.quantity = some (it.quantity + 1) ∧
      c2.items.length = cart.items.length ∧
      c2.items.countP (fun i => i.product_id == pid) =
        cart.items.countP (fun i => i.product_id == pid)) := by
  have hstep : ∀ qo : Option Int,
      applyProductStep catalog cart (some pid) qo opts instr =
        .ok { cart with
              items := updateFirstItem pid
                (applyItemUpdate qo opts instr p.base_price) cart.items } := by
    intro qo
    simp only [applyProductStep, if_pos hpid, hres, hex]
  have hup : ∀ qo : Option Int,
      update_cart catalog cart (some pid) qo opts instr tr da =
        .ok (recompute_totals tr da
          { cart with
            items := updateFirstItem pid
              (applyItemUpdate qo opts instr p.base_price) cart.items }) := by
    intro qo
    unfold update_cart
    rw [hstep qo]
    rfl
  constructor
  · intro q hq
    refine ⟨_, hup (some q), ?_, ?_, ?_⟩
    · rw [recompute_totals_items]
      show (findFirst pid (updateFirstItem pid
        (applyItemUpdate (some q) opts instr p.base_price) cart.items)).map
          CartItem.quantity = _
      rw [findFirst_updateFirstItem pid
        (applyItemUpdate (some q) opts instr p.base_price) (fun x => rfl), hex]
      simp [applyItemUpdate, hq]
    · rw [recompute_totals_items]
      exact updateFirstItem_length pid
        (applyItemUpdate (some q) opts instr p.base_price) cart.items
    · rw [recompute_totals_items]
      exact countP_updateFirstItem pid
        (applyItemUpdate (some q) opts instr p.base_price) (fun x => rfl) cart.items
  · refine ⟨_, hup none, ?_, ?_, ?_⟩
    · rw [recompute_totals_items]
      show (findFirst pid (updateFirstItem pid
        (applyItemUpdate none opts instr p.base_price) cart.items)).map
          CartItem.quantity = _
      rw [findFirst_updateFirstItem pid
        (applyItemUpdate none opts instr p.base_price) (fun x => rfl), hex]
      simp [applyItemUpdate]
    · rw [recompute_totals_items]
      exact updateFirstItem_length pid
        (applyItemUpdate none opts instr p.base_price) cart.items
    · rw [recompute_totals_items]
      exact countP_updateFirstItem pid
        (applyItemUpdate none opts instr p.base_price) (fun x => rfl) cart.items

/-- Witness for claim C1 at a concrete cart with one Pizza line: an
explicit quantity 5 replaces, an omitted quantity increments 1 to 2,
and the cart keeps exactly one line for the product either way. -/
theorem claim_C1_witness :
    (update_cart exCatalogP exCartP (some "P") (some 5) none none 0 0).toOption.map
      (fun c => ((findFirst "P" c.items).map CartItem.quantity, c.items.length,
        c.items.countP (fun i => i.product_id == "P"))) = some (some 5, 1, 1) ∧
    (update_cart exCatalogP exCartP (some "P") none none none 0 0).toOption.map
      (fun c => ((findFirst "P" c.items).map CartItem.quantity, c.items.length,
        c.items.countP (fun i => i.product_id == "P"))) = some (some 2, 1, 1) := by
  have h := claim_C1_update_existing exCatalogP exCartP "P" exProductP exItemP
    none none 0 0 (by decide) (by decide) (by decide)
  obtain ⟨c2, hc2, hq2, hlen2, hcnt2⟩ := h.1 5 (by decide)
  obtain ⟨c3, hc3, hq3, hlen3, hcnt3⟩ := h.2
  constructor
  · rw [hc2]
    simp [Except.toOption, hq2, hlen2, hcnt2, exCartP, exItemP]
  · rw [hc3]
    simp [Except.toOption, hq3, hlen3, hcnt3, exCartP, exItemP]

def exProductP3 : Product :=
  { id := "P", name := "Pizza", base_price := 3, is_available := true }

def exCatalogP3 : Catalog := fun pid => if pid = "P" then some exProductP3 else none

/-- Cart reached by adding product P once at base price 2 and then
updating it again (quantity omitted) after the base price moved to 3. -/
def exCartSnap : Cart :=
  { location_id := "L", customer_id := none,
    items := [{ product_id := "P", name := "Pizza", quantity := 2,
                unit_price := 2, total_price := 6, selected_options := [],
                special_instructions := "" }],
    subtotal := 6, tax_amount := 0, discount_amount := 0, total_amount := 6 }

/-- Counterexample to claim C2: after the product\x27s base price changes
from 2 to 3, a second update recomputes total_price with the new price
(2 times 3 = 6) while unit_price keeps the snapshot 2, so
total_price = quantity times unit_price fails (6 is not 4). -/
theorem claim_C2_counterexample :
    ((update_cart exCatalogP (create_cart "L" none) (some "P") none none none 0 0).bind
      (fun c1 => update_cart exCatalogP3 c1 (some "P") none none none 0 0)).toOption =
      some exCartSnap ∧
    exCartSnap.items.map CartItem.total_price = [6] ∧
    exCartSnap.items.map (fun i => (i.quantity : ℚ) * i.unit_price) = [4] ∧
    (6 : ℚ) ≠ 4 := by
  refine ⟨?_, by simp [exCartSnap], by simp [exCartSnap]; norm_num, by norm_num⟩
  simp [update_cart, applyProductStep, get_product_by_id, exCatalogP, exCatalogP3,
    exProductP, exProductP3, create_cart, findFirst, applyItemUpdate, newCartItem,
    recompute_totals, round2, exCartSnap, Except.map, Except.bind, Except.toOption,
    round_eq]
  simp [updateFirstItem, applyItemUpdate]
  norm_num [round_eq]

/-- Consistency of one cart item against a catalog: its total is its
quantity times its unit price, and its unit price agrees with the
catalog\x27s current base price whenever the product still resolves. -/
def ItemConsistent (catalog : Catalog) (it : CartItem) : Prop :=
  it.total_price = it.quantity * it.unit_price ∧
  ∀ p, get_product_by_id catalog it.product_id = some p → it.unit_price = p.base_price

/-- Claim C2 (amended): unit_price is snapshotted at add-time and never
rewritten by later updates (the old unit prices persist as a prefix of
the new ones), and the invariant total_price = quantity times unit_price
is preserved by every successful update as long as each item\x27s product
still carries its snapshotted base price in the catalog; when the base
price changed since add-time the update recomputes total_price at the
new price while keeping the old unit_price, so the invariant fails
(claim_C2_counterexample). -/
theorem claim_C2_amended (catalog : Catalog) (cart : Cart) (pido : Option String)
    (q : Option Int) (opts : Option (List SelectedOption)) (instr : Option String)
    (tr da : ℚ) (c2 : Cart)
    (hc : ∀ it ∈ cart.items, ItemConsistent catalog it)
    (hup : update_cart catalog cart pido q opts instr tr da = .ok c2) :
    (∀ it ∈ c2.items, ItemConsistent catalog it) ∧
    cart.items.map CartItem.unit_price <+: c2.items.map CartItem.unit_price := by
  obtain ⟨c, hstep, hc2⟩ := update_cart_ok catalog cart pido q opts instr tr da c2 hup
  subst hc2
  rcases applyProductStep_ok_cases catalog cart pido q opts instr c hstep with
    hcc | ⟨pid, p, hpido, hres, hcc⟩ | ⟨pid, p, hpido, hres, hcc⟩
  · subst hcc
    exact ⟨hc, List.prefix_refl _⟩
  · subst hcc
    constructor
    · intro it hit
      rw [recompute_totals_items] at hit
      rcases mem_updateFirstItem hit with h1 | ⟨y, hy, hypid, hxy⟩
      · exact hc it h1
      · subst hxy
        have hyc := hc y hy
        have hunit : y.unit_price = p.base_price := hyc.2 p (by rw [hypid]; exact hres)
        constructor
        · show (applyItemUpdate q opts instr p.base_price y).total_price = _
          simp [applyItemUpdate, hunit]
        · intro p' hp'
          rw [applyItemUpdate_product_id, hypid, hres] at hp'
          have hpp : p = p' := Option.some.inj hp'
          subst hpp
          rw [applyItemUpdate_unit_price]
          exact hunit
    · rw [recompute_totals_items]
      show cart.items.map CartItem.unit_price <+:
        (updateFirstItem pid (applyItemUpdate q opts instr p.base_price)
          cart.items).map CartItem.unit_price
      rw [map_unitPrice_updateFirstItem pid
        (applyItemUpdate q opts instr p.base_price) (fun x => rfl)]
  · subst hcc
    constructor
    · intro it hit
      rw [recompute_totals_items] at hit
      rcases List.mem_append.mp hit with h1 | h2
      · exact hc it h1
      · have hnew : it = newCartItem pid p q opts instr := by simpa using h2
        subst hnew
        refine ⟨rfl, ?_⟩
        intro p' hp'
        have hpidnew : (newCartItem pid p q opts instr).product_id = pid := rfl
        rw [hpidnew, hres] at hp'
        have hpp : p = p' := Option.some.inj hp'
        subst hpp
        rfl
    · rw [recompute_totals_items]
      show cart.items.map CartItem.unit_price <+:
        (cart.items ++ [newCartItem pid p q opts instr]).map CartItem.unit_price
      rw [List.map_append]
      exact List.prefix_append _ _

/-- Cart reached from exCartP by an increment update at the unchanged
price 2. -/
def exCartAfter : Cart :=
  { location_id := "L", customer_id := none,
    items := [{ product_id := "P", name := "Pizza", quantity := 2,
                unit_price := 2, total_price := 4,
                selected_options := [[("size", "large")]],
                special_instructions := "no onions" }],
    subtotal := 4, tax_amount := 0, discount_amount := 0, total_amount := 4 }

/-- Witness for claim C2 (amended) at a concrete consistent cart. -/
theorem claim_C2_amended_witness :
    ItemConsistent exCatalogP
      { product_id := "P", name := "Pizza", quantity := 2, unit_price := 2,
        total_price := 4, selected_options := [[("size", "large")]],
        special_instructions := "no onions" } ∧
    exCartP.items.map CartItem.unit_price <+:
      exCartAfter.items.map CartItem.unit_price := by
  have hc : ∀ it ∈ exCartP.items, ItemConsistent exCatalogP it := by
    intro it hit
    have heq : it = exItemP := by simpa [exCartP] using hit
    subst heq
    refine ⟨by norm_num [exItemP], ?_⟩
    intro p hp
    have hg : get_product_by_id exCatalogP exItemP.product_id = some exProductP := by
      simp [get_product_by_id, exCatalogP, exItemP, exProductP]
    rw [hg] at hp
    have hp' : exProductP = p := Option.some.inj hp
    subst hp'
    rfl
  have hup : update_cart exCatalogP exCartP (some "P") none none none 0 0 =
      .ok exCartAfter := by
    simp [update_cart, applyProductStep, get_product_by_id, exCatalogP, exProductP,
      exCartP, exItemP, findFirst, applyItemUpdate, newCartItem, recompute_totals,
      round2, exCartAfter, Except.map, round_eq]
    simp [updateFirstItem, applyItemUpdate]
    norm_num [round_eq]
  have h := claim_C2_amended exCatalogP exCartP (some "P") none none none 0 0
    exCartAfter hc hup
  refine ⟨?_, h.2⟩
  exact h.1 _ (by simp [exCartAfter])

/-- Counterexample to claim C3: an update that explicitly provides an
empty selected-options list and an empty special-instructions string
does not replace the stored values with empty ones; Python or keeps the
previously stored values because the provided values are falsy. -/
theorem claim_C3_counterexample :
    ((update_cart exCatalogP exCartP (some "P") none (some []) (some "") 0 0).toOption.map
      (fun c => c.items.map (fun i => (i.selected_options, i.special_instructions)))) =
      some [([[("size", "large")]], "no onions")] ∧
    ([[("size", "large")]] : List SelectedOption) ≠ ([] : List SelectedOption) ∧
    "no onions" ≠ "" := by
  refine ⟨?_, by decide, by decide⟩
  simp [update_cart, applyProductStep, get_product_by_id, exCatalogP, exProductP,
    exCartP, exItemP, findFirst, applyItemUpdate, newCartItem, recompute_totals,
    round2, Except.map, Except.toOption, round_eq]
  simp [updateFirstItem, applyItemUpdate]

/-- Claim C3 (amended): for an update touching an existing cart item, a
provided non-empty selectedOptions / specialInstructions value replaces
the stored one; an omitted or provided-but-empty value leaves the
previously stored value unchanged (an empty value never clears it). -/
theorem claim_C3_amended (catalog : Catalog) (cart : Cart) (pid : String)
    (p : Product) (it : CartItem) (q : Option Int)
    (opts : Option (List SelectedOption)) (instr : Option String) (tr da : ℚ)
    (hpid : pid ≠ "") (hres : get_product_by_id catalog pid = some p)
    (hex : findFirst pid cart.items = some it) :
    ∃ c2, update_cart catalog cart (some pid) q opts instr tr da = .ok c2 ∧
      (findFirst pid c2.items).map CartItem.selected_options =
        some (match opts with
              | some l => if l = [] then it.selected_options else l
              | none => it.selected_options) ∧
      (findFirst pid c2.items).map CartItem.special_instructions =
        some (match instr with
              | some s => if s = "" then it.special_instructions else s
              | none => it.special_instructions) := by
  have hstep : applyProductStep catalog cart (some pid) q opts instr =
      .ok { cart with
            items := updateFirstItem pid
              (applyItemUpdate q opts instr p.base_price) cart.items } := by
    simp only [applyProductStep, if_pos hpid, hres, hex]
  refine ⟨_, by unfold update_cart; rw [hstep]; rfl, ?_, ?_⟩
  · rw [recompute_totals_items]
    show (findFirst pid (updateFirstItem pid
      (applyItemUpdate q opts instr p.base_price) cart.items)).map
        CartItem.selected_options = _
    rw [findFirst_updateFirstItem pid
      (applyItemUpdate q opts instr p.base_price) (fun x => rfl), hex]
    cases opts with
    | none => simp [applyItemUpdate]
    | some l =>
      by_cases hl : l = []
      · simp [applyItemUpdate, hl]
      · simp [applyItemUpdate, hl]
  · rw [recompute_totals_items]
    show (findFirst pid (updateFirstItem pid
      (applyItemUpdate q opts instr p.base_price) cart.items)).map
        CartItem.special_instructions = _
    rw [findFirst_updateFirstItem pid
      (applyItemUpdate q opts instr p.base_price) (fun x => rfl), hex]
    cases instr with
    | none => simp [applyItemUpdate]
    | some s =>
      by_cases hs : s = ""
      · simp [applyItemUpdate, hs]
      · simp [applyItemUpdate, hs]

/-- Witness for claim C3 (amended): empty provided values keep the
stored option list and instruction text. -/
theorem claim_C3_amended_witness :
    (update_cart exCatalogP exCartP (some "P") none (some []) (some "") 0 0).toOption.map
      (fun c => ((findFirst "P" c.items).map CartItem.selected_options,
        (findFirst "P" c.items).map CartItem.special_instructions)) =
      some (some [[("size", "large")]], some "no onions") := by
  obtain ⟨c2, hc2, ho, hi⟩ := claim_C3_amended exCatalogP exCartP "P" exProductP
    exItemP none (some []) (some "") 0 0 (by decide) (by decide) (by decide)
  rw [hc2]
  simp [Except.toOption, ho, hi, exItemP]

def exProductU : Product :=
  { id := "U", name := "Unl", base_price := 9, is_available := false }

/-- Catalog in which product U exists but is marked unavailable. -/
def exCatalogU : Catalog := fun pid => if pid = "U" then some exProductU else none

/-- Claim C4: an update naming a product id that resolves to a missing
or unavailable product fails with the product-unavailable error rather
than silently skipping; no updated cart is produced (the embedding is
pure, so the caller\x27s cart value is untouched on error). -/
theorem claim_C4_unavailable_fails (catalog : Catalog) (cart : Cart) (pid : String)
    (q : Option Int) (opts : Option (List SelectedOption)) (instr : Option String)
    (tr da : ℚ) (hpid : pid ≠ "")
    (hmiss : ∀ p, catalog pid = some p → p.is_available = false) :
    update_cart catalog cart (some pid) q opts instr tr da =
      .error ("Product " ++ pid ++ " not found or unavailable") := by
  have hres : get_product_by_id catalog pid = none := by
    unfold get_product_by_id
    cases hc : catalog pid with
    | none => rfl
    | some p => simp [hmiss p hc]
  simp only [update_cart, applyProductStep, if_pos hpid, hres, Except.map]

/-- Witness for claim C4: an unavailable product and an absent product. -/
theorem claim_C4_witness :
    update_cart exCatalogU exCartP (some "U") none none none 0 0 =
      .error "Product U not found or unavailable" ∧
    update_cart exCatalogU exCartP (some "Z") (some 2) none none 0 0 =
      .error "Product Z not found or unavailable" := by
  constructor
  · exact claim_C4_unavailable_fails exCatalogU exCartP "U" none none none 0 0
      (by decide) (fun p hp => by
        have hp' : exProductU = p := by simpa [exCatalogU] using hp
        subst hp'
        rfl)
  · exact claim_C4_unavailable_fails exCatalogU exCartP "Z" (some 2) none none 0 0
      (by decide) (fun p hp => by simp [exCatalogU] at hp)

/-- Claim C5: every successful update, also one carrying no product id,
ends with a recompute from scratch: the subtotal is the sum of the
items\x27 total prices, the tax is round2 of subtotal times the tax rate,
and the total is round2 of subtotal plus tax minus discount. -/
theorem claim_C5_totals_recompute (catalog : Catalog) (cart : Cart)
    (pido : Option String) (q : Option Int) (opts : Option (List SelectedOption))
    (instr : Option String) (tr da : ℚ) (c2 : Cart)
    (h : update_cart catalog cart pido q opts instr tr da = .ok c2) :
    c2.subtotal = (c2.items.map CartItem.total_price).sum ∧
    c2.tax_amount = round2 (c2.subtotal * tr) ∧
    c2.total_amount = round2 (c2.subtotal + c2.tax_amount - c2.discount_amount) := by
  obtain ⟨c, hstep, hc2⟩ := update_cart_ok catalog cart pido q opts instr tr da c2 h
  subst hc2
  exact ⟨rfl, rfl, rfl⟩

/-- Cart produced by updating the Pizza line to quantity 3 with a 10
percent tax rate and a discount of 1. -/
def exCartFive : Cart :=
  { location_id := "L", customer_id := none,
    items := [{ product_id := "P", name := "Pizza", quantity := 3,
                unit_price := 2, total_price := 6,
                selected_options := [[("size", "large")]],
                special_instructions := "no onions" }],
    subtotal := 6, tax_amount := 3 / 5, discount_amount := 1,
    total_amount := 28 / 5 }

/-- Witness for claim C5 on a concrete successful update with a tax
rate and discount. -/
theorem claim_C5_witness :
    update_cart exCatalogP exCartP (some "P") (some 3) none none (1 / 10) 1 =
      .ok exCartFive ∧
    exCartFive.subtotal = (exCartFive.items.map CartItem.total_price).sum ∧
    exCartFive.tax_amount = round2 (exCartFive.subtotal * (1 / 10)) ∧
    exCartFive.total_amount =
      round2 (exCartFive.subtotal + exCartFive.tax_amount -
        exCartFive.discount_amount) := by
  have hu : update_cart exCatalogP exCartP (some "P") (some 3) none none (1 / 10) 1 =
      .ok exCartFive := by
    simp [update_cart, applyProductStep, get_product_by_id, exCatalogP, exProductP,
      exCartP, exItemP, findFirst, applyItemUpdate, newCartItem, recompute_totals,
      round2, exCartFive, Except.map, round_eq]
    simp [updateFirstItem, applyItemUpdate]
    norm_num [round_eq]
  have h := claim_C5_totals_recompute exCatalogP exCartP (some "P") (some 3)
    none none (1 / 10) 1 exCartFive hu
  exact ⟨hu, h.1, h.2.1, h.2.2⟩

/-- Claim C10: every successful update overwrites the cart\x27s discount
with the call\x27s discountAmount argument and recomputes the tax from the
call\x27s taxRate argument, so values set by earlier calls do not persist;
the add_to_cart tool always calls the engine with both arguments at
their 0 defaults, hence every add_to_cart invocation either leaves the
cart untouched (rejected or failed) or returns a cart whose discount
and tax are 0. -/
theorem claim_C10_discount_tax_reset (catalog : Catalog) (cart : Cart) :
    (∀ pido q opts instr tr da c2,
      update_cart catalog cart pido q opts instr tr da = .ok c2 →
        c2.discount_amount = da ∧ c2.tax_amount = round2 (c2.subtotal * tr)) ∧
    (∀ pid qty si,
      (add_to_cart catalog cart pid qty si).2 = cart ∨
      ((add_to_cart catalog cart pid qty si).2.discount_amount = 0 ∧
       (add_to_cart catalog cart pid qty si).2.tax_amount = 0)) := by
  have hmain : ∀ pido q opts instr tr da c2,
      update_cart catalog cart pido q opts instr tr da = .ok c2 →
        c2.discount_amount = da ∧ c2.tax_amount = round2 (c2.subtotal * tr) := by
    intro pido q opts instr tr da c2 h
    obtain ⟨c, hstep, hc2⟩ := update_cart_ok catalog cart pido q opts instr tr da c2 h
    subst hc2
    exact ⟨rfl, rfl⟩
  refine ⟨hmain, ?_⟩
  intro pid qty si
  unfold add_to_cart
  by_cases hpid : pid = ""
  · simp [hpid]
  · by_cases hq : qty ≤ 0
    · simp [hpid, hq]
    · cases hu : update_cart catalog cart (some pid) (some qty) (some []) (some si) 0 0 with
      | error e => simp [hpid, hq, hu]
      | ok c =>
        right
        obtain ⟨hd, ht⟩ := hmain (some pid) (some qty) (some []) (some si) 0 0 c hu
        have htz : c.tax_amount = 0 := by
          rw [ht]
          simp [round2]
        cases hfind : findFirst pid c.items with
        | some it => simp [hpid, hq, hu, hfind, hd, htz]
        | none => simp [hpid, hq, hu, hfind, hd, htz]

/-- Cart produced by a parameterless totals refresh of exCartP with a
10 percent tax rate and a discount of 1. -/
def exCartTaxed : Cart :=
  { location_id := "L", customer_id := none, items := [exItemP],
    subtotal := 2, tax_amount := 1 / 5, discount_amount := 1,
    total_amount := 6 / 5 }

/-- Witness for claim C10 at a concrete update carrying a tax rate and
discount, and at a concrete add_to_cart call. -/
theorem claim_C10_witness :
    update_cart exCatalogP exCartP none none none none (1 / 10) 1 = .ok exCartTaxed ∧
    exCartTaxed.discount_amount = 1 ∧
    exCartTaxed.tax_amount = round2 (exCartTaxed.subtotal * (1 / 10)) ∧
    ((add_to_cart exCatalogP exCartP "P" 2 "").2 = exCartP ∨
     ((add_to_cart exCatalogP exCartP "P" 2 "").2.discount_amount = 0 ∧
      (add_to_cart exCatalogP exCartP "P" 2 "").2.tax_amount = 0)) := by
  have h := claim_C10_discount_tax_reset exCatalogP exCartP
  have hu : update_cart exCatalogP exCartP none none none none (1 / 10) 1 =
      .ok exCartTaxed := by
    simp [update_cart, applyProductStep, recompute_totals, round2, exCartP,
      exItemP, exCartTaxed, Except.map, round_eq]
    norm_num [round_eq]
  have h1 := h.1 none none none none (1 / 10) 1 exCartTaxed hu
  exact ⟨hu, h1.1, h1.2, h.2 "P" 2 ""⟩

/-- Claim C6: the add_to_cart tool answers an empty product id or a
non-positive quantity with a user-facing rejection string and leaves
the cart untouched, and answers any caught engine failure (such as an
unavailable product) with a speakable apology string that embeds the
failure reason, again leaving the cart untouched, instead of letting
the error propagate to the dialog engine. -/
theorem claim_C6_tool_validation (catalog : Catalog) (cart : Cart) :
    (∀ pid qty si, pid = "" ∨ qty ≤ 0 →
      (add_to_cart catalog cart pid qty si).2 = cart ∧
      ((add_to_cart catalog cart pid qty si).1 = "Invalid product ID provided." ∨
       (add_to_cart catalog cart pid qty si).1 = "Quantity must be a positive number.")) ∧
    (∀ pid qty si e, pid ≠ "" → 0 < qty →
      update_cart catalog cart (some pid) (some qty) (some []) (some si) 0 0 =
        .error e →
      add_to_cart catalog cart pid qty si =
        ("Sorry, I couldn\x27t add that item to your cart. " ++ e, cart)) := by
  constructor
  · intro pid qty si hbad
    by_cases hpid : pid = ""
    · constructor
      · simp [add_to_cart, hpid]
      · exact Or.inl (by simp [add_to_cart, hpid])
    · have hq : qty ≤ 0 := by
        rcases hbad with h | h
        · exact absurd h hpid
        · exact h
      constructor
      · simp [add_to_cart, hpid, hq]
      · exact Or.inr (by simp [add_to_cart, hpid, hq])
  · intro pid qty si e hpid hq hu
    have hq2 : ¬ qty ≤ 0 := not_le.mpr hq
    simp [add_to_cart, hpid, hq2, hu]

/-- Witness for claim C6: empty id, zero and negative quantities, and a
product missing from the catalog. -/
theorem claim_C6_witness :
    ((add_to_cart exCatalogP exCartP "" 2 "").2 = exCartP ∧
     ((add_to_cart exCatalogP exCartP "" 2 "").1 = "Invalid product ID provided." ∨
      (add_to_cart exCatalogP exCartP "" 2 "").1 = "Quantity must be a positive number.")) ∧
    ((add_to_cart exCatalogP exCartP "P" 0 "").2 = exCartP ∧
     ((add_to_cart exCatalogP exCartP "P" 0 "").1 = "Invalid product ID provided." ∨
      (add_to_cart exCatalogP exCartP "P" 0 "").1 = "Quantity must be a positive number.")) ∧
    add_to_cart exCatalogP exCartP "Z" 2 "" =
      ("Sorry, I couldn\x27t add that item to your cart. " ++
        "Product Z not found or unavailable", exCartP) := by
  have h := claim_C6_tool_validation exCatalogP exCartP
  refine ⟨h.1 "" 2 "" (Or.inl rfl), h.1 "P" 0 "" (Or.inr (by decide)), ?_⟩
  refine h.2 "Z" 2 "" "Product Z not found or unavailable" (by decide) (by decide) ?_
  simp only [update_cart, applyProductStep, Except.map]
  have hres : get_product_by_id exCatalogP "Z" = none := by decide
  simp [hres]

theorem lookupMatches_filter (ql : String) (l : List MenuItem) :
    lookupMatches ql l = (l.filter (matchesQuery ql)).map projMatch := by
  induction l with
  | nil => rfl
  | cons i rest ih =>
    cases h : matchesQuery ql i with
    | true => simp [lookupMatches, h, List.filter_cons, ih]
    | false => simp [lookupMatches, h, List.filter_cons, ih]

def exMenuItem : MenuItem :=
  { id := some "m1", name := some "Chicken Shawarma", name_ar := none,
    description := some "grilled chicken, garlic sauce", description_ar := none,
    price := some 2, short_code := some "CS1", in_stock := true,
    image_url := none, category := some "Wraps", category_ar := none,
    updated_at := none }

def exMenu : CompactMenu := { items := [exMenuItem], count := 1, fetched_at := "t" }

/-- Claim C7: menu lookup returns, in source order, exactly the items
for which the lowered query is a substring of at least one of the six
lowered text fields (name, localized name, category, localized category,
description, localized description), absent fields reading as empty;
and a lookup with zero matches produces the dedicated spoken no-match
response together with its engine-facing confirmation, never an error. -/
theorem claim_C7_lookup (menu : CompactMenu) (query : String) :
    lookupMatches (lowerStr query) menu.items =
      (menu.items.filter (fun item =>
        isInfixList (lowerStr query).toList (lowerStr (item.name.getD "")).toList ||
        isInfixList (lowerStr query).toList (lowerStr (item.name_ar.getD "")).toList ||
        isInfixList (lowerStr query).toList (lowerStr (item.category.getD "")).toList ||
        isInfixList (lowerStr query).toList (lowerStr (item.category_ar.getD "")).toList ||
        isInfixList (lowerStr query).toList (lowerStr (item.description.getD "")).toList ||
        isInfixList (lowerStr query).toList
          (lowerStr (item.description_ar.getD "")).toList)).map projMatch ∧
    (lookupMatches (lowerStr query) menu.items = [] →
      lookup_menu menu query =
        { spoken := "I\x27m sorry, I couldn\x27t find anything matching \x27" ++ query ++
            "\x27 on the menu."
          engine := "Informed the user that no matching menu items were found." }) := by
  constructor
  · exact lookupMatches_filter (lowerStr query) menu.items
  · intro hempty
    simp [lookup_menu, hempty]

/-- Witness for claim C7: a query matching no item yields the no-match
response, and a differently-cased query still matches on a description
field. -/
theorem claim_C7_witness :
    lookupMatches (lowerStr "zzz") exMenu.items = [] ∧
    lookup_menu exMenu "zzz" =
      { spoken := "I\x27m sorry, I couldn\x27t find anything matching \x27zzz\x27 on the menu."
        engine := "Informed the user that no matching menu items were found." } ∧
    lookupMatches (lowerStr "CHICKEN") exMenu.items = [projMatch exMenuItem] := by
  have h := claim_C7_lookup exMenu "zzz"
  refine ⟨by decide, ?_, by decide⟩
  have h2 := h.2 (by decide)
  simpa using h2

/-- Counterexample to claim C8: a menu that is present but empty (zero
items, as produced by projecting an empty product list) is truthy in
the source, so summarize does not return "No menu available." for it
but the zero-item digest. -/
theorem claim_C8_counterexample :
    summarize_menu (some (build_compact_menu "t" [])) 3 "" =
      "Top 0 items: No items available. Categories (EN): None. Categories (AR): None." ∧
    summarize_menu (some (build_compact_menu "t" [])) 3 "" ≠ "No menu available." := by
  exact ⟨by decide, by decide⟩

def exUnnamedItem : MenuItem :=
  { id := none, name := some "", name_ar := none, description := none,
    description_ar := none, price := none, short_code := none, in_stock := true,
    image_url := none, category := none, category_ar := none, updated_at := none }

/-- Claim C8 (amended): summarize returns exactly "No menu available."
for an absent (falsy) menu; a present menu with an empty items sequence
instead yields the zero-item digest; and an item whose name and
localized name are both absent or blank renders as "Unnamed" in its
digest line. -/
theorem claim_C8_amended :
    (∀ tn cur, summarize_menu none tn cur = "No menu available.") ∧
    (∀ now tn cur, summarize_menu (some (build_compact_menu now [])) tn cur =
      "Top 0 items: No items available. Categories (EN): None. Categories (AR): None.") ∧
    (∀ cur i, stripStr (i.name.getD "") = "" → stripStr (i.name_ar.getD "") = "" →
      lineFor cur i = itemCode i ++ ": Unnamed" ++
        (if fmt_price cur i.price = "" then ""
         else " — " ++ fmt_price cur i.price)) := by
  refine ⟨fun tn cur => rfl, fun now tn cur => ?_, fun cur i h1 h2 => ?_⟩
  · simp [summarize_menu, build_compact_menu, catStr, dedupCategories, joinSep]
    rfl
  · simp [lineFor, h1, h2]

/-- Witness for claim C8 (amended) at an item with a blank name and no
localized name. -/
theorem claim_C8_amended_witness :
    summarize_menu none 3 "" = "No menu available." ∧
    summarize_menu (some (build_compact_menu "t0" [])) 5 "KD" =
      "Top 0 items: No items available. Categories (EN): None. Categories (AR): None." ∧
    lineFor "" exUnnamedItem = itemCode exUnnamedItem ++ ": Unnamed" ++
      (if fmt_price "" exUnnamedItem.price = "" then ""
       else " — " ++ fmt_price "" exUnnamedItem.price) := by
  have h := claim_C8_amended
  exact ⟨h.1 3 "", h.2.1 "t0" 5 "KD", h.2.2 "" exUnnamedItem (by decide) (by decide)⟩

/-- Raw product row whose top-level name and price are present but
falsy (empty string, zero), with a nested blob carrying values. -/
def exRawFalsy : RawProduct :=
  { id := some "r1", name := some "", name_ar := none, description := none,
    description_ar := none, base_price := some 0, short_code := none,
    is_available := none, image_url := none, category := none,
    category_ar := none, updated_at := none,
    menu_json := some { emptyMenuJson with
      name_en := some "Nested", base_price_kd := some 5 } }

/-- Counterexample to claim C9: the projection prefers the top-level
field only when it is truthy; a present top-level price 0 and a present
top-level empty name both lose to the nested blob, contradicting
"takes the top-level value when present". -/
theorem claim_C9_counterexample :
    (project_product exRawFalsy).price = some 5 ∧
    exRawFalsy.base_price = some 0 ∧
    (5 : ℚ) ≠ 0 ∧
    (project_product exRawFalsy).name = some "Nested" ∧
    exRawFalsy.name = some "" := by
  refine ⟨?_, rfl, by norm_num, ?_, rfl⟩
  · simp [project_product, exRawFalsy, orQ, emptyMenuJson]
  · simp [project_product, exRawFalsy, orStr, emptyMenuJson]

/-- Raw product row with no top-level price and a nested price of 0:
the trailing or None of the source\x27s price chain normalizes the falsy
nested fallback to an absent price. -/
def exRawZeroNested : RawProduct :=
  { id := some "r2", name := some "Tea", name_ar := none, description := none,
    description_ar := none, base_price := none, short_code := none,
    is_available := none, image_url := none, category := none,
    category_ar := none, updated_at := none,
    menu_json := some { emptyMenuJson with base_price_kd := some 0 } }

/-- Claim C9 (amended): the projection never fails (it is total); for
name, description and category the top-level value is used when it is
present and truthy (non-empty), the nested blob value is the raw
fallback otherwise, and the result is null when both are absent; for
price the source appends a trailing or None, so the projected price is
the top-level base_price when non-zero, else the nested base_price_kd
when non-zero, else null: a falsy fallback, including a present nested
price of 0, is normalized to null (exRawZeroNested below); availability
alone is presence-based: a present top-level availability flag is kept
even when false, else the nested in_stock, defaulting to true when
neither source states it. -/
theorem claim_C9_amended (p : RawProduct) :
    (project_product p).name =
      (match p.name with
       | some s => if s = "" then (p.menu_json.getD emptyMenuJson).name_en else some s
       | none => (p.menu_json.getD emptyMenuJson).name_en) ∧
    (project_product p).description =
      (match p.description with
       | some s => if s = "" then (p.menu_json.getD emptyMenuJson).description_en
                   else some s
       | none => (p.menu_json.getD emptyMenuJson).description_en) ∧
    (project_product p).price =
      (match (match p.base_price with
              | some q => if q = 0 then (p.menu_json.getD emptyMenuJson).base_price_kd
                          else some q
              | none => (p.menu_json.getD emptyMenuJson).base_price_kd) with
       | some q => if q = 0 then none else some q
       | none => none) ∧
    (project_product exRawZeroNested).price = none ∧
    (exRawZeroNested.menu_json.getD emptyMenuJson).base_price_kd = some 0 ∧
    (project_product p).category =
      (match p.category with
       | some s => if s = "" then (p.menu_json.getD emptyMenuJson).category else some s
       | none => (p.menu_json.getD emptyMenuJson).category) ∧
    (project_product p).in_stock =
      (match p.is_available with
       | some b => b
       | none => ((p.menu_json.getD emptyMenuJson).in_stock.getD true)) := by
  refine ⟨rfl, rfl, rfl, ?_, ?_, rfl, rfl⟩
  · simp [project_product, exRawZeroNested, orQ, emptyMenuJson]
  · rfl
